import Mathlib

/-!
Verification model of the OAuth authorization flow of `src/cli.ts`
(class `OAuthFlow`, lines 2097-2294).

The flow is embedded shallowly: the single-threaded Node event loop is
modelled as a fold of a step function over a list of events (callback
requests, timer expiry, server errors, console input), the pending
promise as an `Option AuthResult` that only the first resolution can
set, and the `http.Server` / `setTimeout` handles as boolean flags with
ghost counters recording how often the socket is closed, the timer
cancelled, and the token exchanger invoked.
-/

namespace NbnGcli

/-! ## Query-string and URL parsing

Models the behaviour of Node's legacy `url.parse(input, true)` as used
by `OAuthFlow`: the query is the portion after the first `?` (and
before any `#` fragment), split on `&`, each pair split at its first
`=`, with keys and values percent-decoded and `+` read as a space. -/

/-- Value of an ASCII hex digit, as used by percent-decoding. -/
def hexVal (c : Char) : Option Nat :=
  if 48 ≤ c.toNat ∧ c.toNat ≤ 57 then some (c.toNat - 48)
  else if 65 ≤ c.toNat ∧ c.toNat ≤ 70 then some (c.toNat - 55)
  else if 97 ≤ c.toNat ∧ c.toNat ≤ 102 then some (c.toNat - 87)
  else none

/-- Fuelled worker for `percentDecode`; every step consumes at least
one character, so fuel equal to the length never runs out. -/
def pdAux : Nat → List Char → List Char
  | 0, l => l
  | _ + 1, [] => []
  | fuel + 1, c :: rest =>
    if c = '%' then
      match rest with
      | a :: b :: rest2 =>
        match hexVal a, hexVal b with
        | some x, some y => Char.ofNat (16 * x + y) :: pdAux fuel rest2
        | _, _ => c :: pdAux fuel rest
      | _ => c :: pdAux fuel rest
    else (if c = '+' then ' ' else c) :: pdAux fuel rest

/-- Percent-decoding of query components (`%XX` escapes and `+` as
space); malformed escapes are kept verbatim, as Node's query-string
decoder does. -/
def percentDecode (l : List Char) : List Char := pdAux l.length l

/-- Split a character list at every occurrence of `sep`. -/
def splitOnChar (sep : Char) : List Char → List (List Char)
  | [] => [[]]
  | c :: rest =>
    let r := splitOnChar sep rest
    if c = sep then [] :: r
    else
      match r with
      | [] => [[c]]
      | h :: t => (c :: h) :: t

/-- Split a character list at the FIRST occurrence of `sep`: the part
before it, and (when `sep` occurs) the part after it. -/
def breakAtChar (sep : Char) : List Char → List Char × Option (List Char)
  | [] => ([], none)
  | c :: rest =>
    if c = sep then ([], some rest)
    else
      let p := breakAtChar sep rest
      (c :: p.1, p.2)

/-- Parse the raw query string (the part after `?`) into an association
list, as `querystring.parse` does: split on `&`, drop empty pieces,
split each piece at its first `=` (a piece with no `=` gets value
`""`), percent-decode keys and values. -/
def parseQueryChars (qs : List Char) : List (String × String) :=
  (splitOnChar '&' qs).filterMap fun pair =>
    match pair with
    | [] => none
    | _ =>
      let kv := breakAtChar '=' pair
      some (String.mk (percentDecode kv.1), String.mk (percentDecode (kv.2.getD [])))

/-- The `pathname` of a request URL as computed by `url.parse`: the
part before the first `?`, with any `#` fragment removed first. -/
def urlPathname (u : String) : String :=
  String.mk (breakAtChar '?' (breakAtChar '#' u.data).1).1

/-- The parsed query of a URL string, as `url.parse(u, true).query`:
empty when the URL has no `?`. -/
def urlQuery (u : String) : List (String × String) :=
  match (breakAtChar '?' (breakAtChar '#' u.data).1).2 with
  | none => []
  | some qs => parseQueryChars qs

/-! ## JavaScript truthiness on optional strings

`query.error`, `query.code`, `tokens.refresh_token` and
`result.error` are all tested with JS truthiness: `undefined` and the
empty string are falsy. -/

/-- JS truthiness of an optional string value (`undefined` and `""`
are falsy). -/
def jsTruthy : Option String → Bool
  | some s => !s.isEmpty
  | none => false

/-- `o || undefined` on an optional string: an empty string collapses
to `undefined` (`none`). Models `tokens.refresh_token || undefined`. -/
def jsOrNone : Option String → Option String
  | some s => if s.isEmpty then none else some s
  | none => none

/-- `o || d` on an optional string with a string default. Models
`result.error || "Authorization failed"`. -/
def jsOrDefault (o : Option String) (d : String) : String :=
  match o with
  | some s => if s.isEmpty then d else s
  | none => d

/-! ## percent-encoding (`encodeURIComponent`) -/

/-- Characters `encodeURIComponent` leaves unescaped:
`A-Z a-z 0-9 - _ . ! ~ * ' ( )`. -/
def isUriUnreserved (c : Char) : Bool :=
  c.isAlpha || c.isDigit ||
  c == '-' || c == '_' || c == '.' || c == '!' || c == '~' || c == '*' ||
  c == Char.ofNat 39 || c == '(' || c == ')'

/-- UTF-8 byte sequence of a character. -/
def utf8Bytes (c : Char) : List Nat :=
  let n := c.toNat
  if n < 128 then [n]
  else if n < 2048 then [192 + n / 64, 128 + n % 64]
  else if n < 65536 then [224 + n / 4096, 128 + (n / 64) % 64, 128 + n % 64]
  else [240 + n / 262144, 128 + (n / 4096) % 64, 128 + (n / 64) % 64, 128 + n % 64]

/-- Upper-case hex digit of a value below 16. -/
def hexDigitUpper (n : Nat) : Char :=
  if n < 10 then Char.ofNat (48 + n) else Char.ofNat (55 + n)

/-- `%XX` escape of one byte. -/
def pctEncodeByte (b : Nat) : List Char :=
  ['%', hexDigitUpper (b / 16), hexDigitUpper (b % 16)]

/-- Character-list worker for `encodeURIComponent`. -/
def encodeChars : List Char → List Char
  | [] => []
  | c :: rest =>
    (if isUriUnreserved c then [c] else List.flatten ((utf8Bytes c).map pctEncodeByte)) ++
      encodeChars rest

/-- JavaScript's `encodeURIComponent`. -/
def encodeURIComponent (s : String) : String :=
  String.mk (encodeChars s.data)

/-! ## Flow constants (`cli.ts` lines 2106-2113) -/

/-- The fixed scope list: full Gmail, Calendar and Drive access
(`cli.ts` lines 2107-2111). -/
def SCOPES : List String :=
  ["https://mail.google.com/",
   "https://www.googleapis.com/auth/calendar",
   "https://www.googleapis.com/auth/drive"]

/-- The fixed attempt deadline, 2 minutes in milliseconds
(`cli.ts` line 2113). -/
def TIMEOUT_MS : Nat := 2 * 60 * 1000

/-- JavaScript's `Array.prototype.join`. -/
def joinSep (sep : String) : List String → String
  | [] => ""
  | [x] => x
  | x :: xs => x ++ sep ++ joinSep sep xs

/-- The scope query value: each scope percent-encoded, joined with the
literal `%20` (`SCOPES.map(encodeURIComponent).join("%20")`). -/
def scopeStr : String := joinSep "%20" (SCOPES.map encodeURIComponent)

/-- The provider authorization endpoint. -/
def AUTH_ENDPOINT : String := "https://accounts.google.com/o/oauth2/v2/auth"

/-- The authorization URL built by both flows (`cli.ts` lines
2152 and 2208): the endpoint followed by the template-literal query,
with only the redirect URI passed through `encodeURIComponent`. -/
def buildAuthUrl (clientId redirectUri : String) : String :=
  AUTH_ENDPOINT ++ "?client_id=" ++ clientId ++
    "&redirect_uri=" ++ encodeURIComponent redirectUri ++
    "&response_type=code&scope=" ++ scopeStr ++
    "&access_type=offline&prompt=consent"

/-- The authorization URL as section 6 of the spec words it: the
endpoint with the six query parameters joined by `&`, `redirect_uri`
URL-encoded and `scope` the space-joined percent-encoded fixed scope
set. Used only to compare with `buildAuthUrl`. -/
def specAuthorizationURL (clientId redirectUri : String) : String :=
  AUTH_ENDPOINT ++ "?" ++
    joinSep "&"
      ["client_id=" ++ clientId,
       "redirect_uri=" ++ encodeURIComponent redirectUri,
       "response_type=code",
       "scope=" ++ joinSep "%20" (SCOPES.map encodeURIComponent),
       "access_type=offline",
       "prompt=consent"]

/-! ## Data model of one authorization attempt -/

/-- The token object returned by the token exchange
(`oauth2Client.getToken`); the flow reads only `refresh_token`, which
the provider may withhold (`none`) or return empty. -/
structure Tokens where
  refresh_token : Option String
deriving DecidableEq

/-- The `AuthResult` interface of `cli.ts` lines 2115-2119. -/
structure AuthResult where
  success : Bool
  refreshToken : Option String := none
  error : Option String := none
deriving DecidableEq

/-- The external token exchanger (`oauth2Client.getToken`): maps an
authorization code to tokens, or throws (modelled as `Except.error`
carrying the error message). -/
def Exchanger : Type := String → Except String Tokens

/-- State of one automated-mode attempt.

`serverOpen` models the `http.Server` handle being live (non-null and
accepting requests); `timerArmed` models a non-null `timeoutId`;
`promise` is the attempt's promise, `none` while pending — Node
promises settle at most once, so only the first resolution sets it.
`exchangeCalls`, `closeCount` and `cancelCount` are ghost counters of
how often `getToken`, `server.close()` and `clearTimeout` (with a live
handle) have run. -/
structure AutoState where
  serverOpen : Bool
  timerArmed : Bool
  promise : Option AuthResult
  exchangeCalls : Nat
  closeCount : Nat
  cancelCount : Nat
deriving DecidableEq

/-- Attempt state right after `server.listen` succeeds and the
`setTimeout` at line 2216 arms the deadline: the socket is accepting
callbacks, the timer is armed, nothing has resolved. -/
def autoInit : AutoState :=
  { serverOpen := true, timerArmed := true, promise := none,
    exchangeCalls := 0, closeCount := 0, cancelCount := 0 }

/-- Promise resolution: a Node promise settles at most once, so a
second `resolve` is a no-op. -/
def resolveP (s : AutoState) (r : AuthResult) : AutoState :=
  match s.promise with
  | some _ => s
  | none => { s with promise := some r }

/-- `OAuthFlow.cleanup` (lines 2265-2274): cancel the timer if one is
armed, close the server if one is live; idempotent by construction. -/
def cleanup (s : AutoState) : AutoState :=
  let s1 :=
    if s.timerArmed then
      { s with timerArmed := false, cancelCount := s.cancelCount + 1 }
    else s
  if s1.serverOpen then
    { s1 with serverOpen := false, closeCount := s1.closeCount + 1 }
  else s1

/-- The `code` query value handed to `getToken`
(`query.code as string`, defaulting for totality). -/
def getCode (q : List (String × String)) : String :=
  (q.lookup "code").getD ""

/-- `OAuthFlow.handleCallback` (lines 2230-2263) on a parsed query:
a truthy `error` resolves a cancellation, a falsy `code` resolves a
missing-code failure, otherwise the exchanger runs and its result (or
thrown error) is resolved; every branch calls `cleanup` before
resolving. -/
def handleCallback (ex : Exchanger) (s : AutoState) (q : List (String × String)) :
    AutoState :=
  if jsTruthy (q.lookup "error") then
    resolveP (cleanup s) { success := false, error := q.lookup "error" }
  else if jsTruthy (q.lookup "code") = false then
    resolveP (cleanup s) { success := false, error := some "No authorization code" }
  else
    let s1 := { s with exchangeCalls := s.exchangeCalls + 1 }
    match ex (getCode q) with
    | Except.ok tokens =>
      resolveP (cleanup s1)
        { success := true, refreshToken := jsOrNone tokens.refresh_token }
    | Except.error e =>
      resolveP (cleanup s1) { success := false, error := some e }

/-- Events an automated-mode attempt can observe: an incoming HTTP
request (carrying its raw URL), expiry of the armed deadline timer,
and an error event on the server (e.g. bind failure). -/
inductive Event where
  | request (rawUrl : String)
  | timeout
  | serverError (msg : String)
deriving DecidableEq

/-- One event-loop step of the automated flow (`startAuthFlow`,
lines 2182-2227). A request reaches the handler only while the server
is live; path `/` goes to `handleCallback`, anything else is a 404
that the flow ignores. The timeout callback fires only if the timer
is still armed (`clearTimeout` prevents it otherwise) and resolves a
timeout failure after cleanup. A server error cleans up and resolves
the error message (bind failure path). -/
def autoStep (ex : Exchanger) (s : AutoState) : Event → AutoState
  | Event.request rawUrl =>
    if s.serverOpen then
      if urlPathname rawUrl = "/" then handleCallback ex s (urlQuery rawUrl)
      else s
    else s
  | Event.timeout =>
    if s.timerArmed then
      resolveP (cleanup s) { success := false, error := some "Authorization timed out" }
    else s
  | Event.serverError msg =>
    resolveP (cleanup s) { success := false, error := some msg }

/-- Run of the automated flow over a list of events, in arrival
order. -/
def autoRun (ex : Exchanger) (s : AutoState) : List Event → AutoState
  | [] => s
  | e :: es => autoRun ex (autoStep ex s e) es

/-- `authorize` (lines 2130-2139) mapped over a settled flow result:
a failed result throws its error (or `"Authorization failed"` when the
message is falsy), a success with a falsy refresh token throws
`"No refresh token received"`, otherwise the refresh token is
returned. -/
def authorizeResult (r : AuthResult) : Except String String :=
  if r.success = false then
    Except.error (jsOrDefault r.error "Authorization failed")
  else
    match r.refreshToken with
    | none => Except.error "No refresh token received"
    | some t => if t.isEmpty then Except.error "No refresh token received" else Except.ok t

/-- `authorize(manual := false)` over an automated-mode event trace:
`none` while the attempt is still pending, otherwise the thrown error
or returned refresh token. -/
def authorizeAuto (ex : Exchanger) (es : List Event) : Option (Except String String) :=
  (autoRun ex autoInit es).promise.map authorizeResult

/-! ## Manual flow (`startManualFlow`, lines 2141-2180) -/

/-- State of one manual-mode attempt. `timerArmed` mirrors the
instance field `timeoutId`: `startManualFlow` never calls `setTimeout`
(no reference to `TIMEOUT_MS` or `timeoutId` appears in lines
2141-2180), so it stays unarmed for the whole attempt. -/
structure ManualState where
  promise : Option AuthResult
  exchangeCalls : Nat
  timerArmed : Bool
deriving DecidableEq

/-- Manual attempt state right after the prompt is displayed and
`rl.question` starts waiting for input: nothing resolved, no exchange
yet, and — as in the source — no timer armed. -/
def manualInit : ManualState :=
  { promise := none, exchangeCalls := 0, timerArmed := false }

/-- First-wins promise resolution for the manual attempt. -/
def resolvePM (s : ManualState) (r : AuthResult) : ManualState :=
  match s.promise with
  | some _ => s
  | none => { s with promise := some r }

/-- Events a manual-mode attempt can observe: one line of console
input, or expiry of a deadline timer (which can fire only if armed). -/
inductive ManualEvent where
  | input (line : String)
  | timeout
deriving DecidableEq

/-- One step of the manual flow. Input is parsed with
`url.parse(input, true)`; a falsy `code` query value resolves
`"No authorization code found in URL"` without calling the exchanger,
otherwise the exchanger runs and its result (or thrown error) is
resolved. A timeout event does nothing unless a timer was armed —
and the manual flow never arms one. -/
def manualStep (ex : Exchanger) (s : ManualState) : ManualEvent → ManualState
  | ManualEvent.input line =>
    let q := urlQuery line
    if jsTruthy (q.lookup "code") = false then
      resolvePM s { success := false, error := some "No authorization code found in URL" }
    else
      let s1 := { s with exchangeCalls := s.exchangeCalls + 1 }
      match ex (getCode q) with
      | Except.ok tokens =>
        resolvePM s1 { success := true, refreshToken := jsOrNone tokens.refresh_token }
      | Except.error e =>
        resolvePM s1 { success := false, error := some e }
  | ManualEvent.timeout =>
    if s.timerArmed then
      resolvePM s { success := false, error := some "Authorization timed out" }
    else s

/-- Run of the manual flow over its events, in arrival order. -/
def manualRun (ex : Exchanger) (s : ManualState) : List ManualEvent → ManualState
  | [] => s
  | e :: es => manualRun ex (manualStep ex s e) es

/-- `authorize(manual := true)` over a manual-mode event trace. -/
def authorizeManual (ex : Exchanger) (es : List ManualEvent) :
    Option (Except String String) :=
  (manualRun ex manualInit es).promise.map authorizeResult

/-! ## Instance-level entry point (`authorize`, constructor fields) -/

/-- The mutable per-instance fields of class `OAuthFlow`
(lines 2121-2124): the server and timer handles (identifiers stand
for the JS object references, `none` for `null`). `attemptsStarted`
is a ghost counter of how many flows the instance has begun. -/
structure InstanceState where
  serverId : Option Nat
  timeoutId : Option Nat
  attemptsStarted : Nat
deriving DecidableEq

/-- A freshly constructed `OAuthFlow`: `server` and `timeoutId` are
`null`. -/
def instanceInit : InstanceState :=
  { serverId := none, timeoutId := none, attemptsStarted := 0 }

/-- The synchronous prefix of `startAuthFlow` (lines 2183-2194):
`this.server = http.createServer(...)` unconditionally assigns a fresh
server handle, overwriting whatever handle the field held. -/
def startAuthFlowBegin (fresh : Nat) (s : InstanceState) : InstanceState :=
  { s with serverId := some fresh, attemptsStarted := s.attemptsStarted + 1 }

/-- The synchronous prefix of `startManualFlow`: rebuilds the OAuth
client and prompts; it touches neither handle field. -/
def startManualFlowBegin (s : InstanceState) : InstanceState :=
  { s with attemptsStarted := s.attemptsStarted + 1 }

/-- Entry of `authorize(manual)` (lines 2130-2139) on the instance
state. The method inspects no field before dispatching — there is no
pending-attempt check anywhere in lines 2130-2139 — so it never
throws at entry (`Except.error` would model a rejection) and simply
begins the requested flow. -/
def authorizeBegin (manual : Bool) (fresh : Nat) (s : InstanceState) :
    Except String InstanceState :=
  if manual then Except.ok (startManualFlowBegin s)
  else Except.ok (startAuthFlowBegin fresh s)

/-! ## Browser launch and full automated attempt -/

/-- `openBrowser` (lines 2276-2293): the platform-specific command and
arguments spawned to open the URL. -/
def openBrowserCmd (platform u : String) : String × List String :=
  if platform = "darwin" then ("open", [u])
  else if platform = "win32" then ("cmd", ["/c", "start", "", u])
  else ("xdg-open", [u])

/-- Outcome of running one automated attempt inside the Node process:
the console log printed by the listen callback, and the final attempt
state — `none` when an uncaught exception has terminated the process
before the attempt could deliver any result. -/
structure ProcessOutcome where
  log : List String
  final : Option AutoState
deriving DecidableEq

/-- A whole automated attempt (`startAuthFlow`, lines 2182-2227,
together with `openBrowser`, lines 2276-2293). The listen callback
prints the three console lines — the authorization URL is printed
before the spawn — and calls `openBrowser`, which spawns the platform
command for the URL and ignores the child process handle
(`spawn(cmd, args, ...).unref()` at line 2292; no listener is
attached to it). When the spawn succeeds (`spawnOk`), the armed
attempt processes its events as usual. When the spawn itself fails
(e.g. `xdg-open` absent, ENOENT), the child process emits an error
event that nothing listens for: Node raises it as an uncaught
exception, terminating the process on the next event-loop turn —
before any callback can arrive, since the browser never opened — so
the attempt never delivers a result. -/
def automatedAttempt (clientId : String) (port : Nat) (platform : String)
    (spawnOk : Bool) (ex : Exchanger) (es : List Event) : ProcessOutcome :=
  let redirectUri := "http://localhost:" ++ toString port
  let authUrl := buildAuthUrl clientId redirectUri
  let log := ["Opening browser for authorization...",
              "If browser doesn't open, visit this URL:",
              authUrl]
  let _ := openBrowserCmd platform authUrl
  if spawnOk then { log := log, final := some (autoRun ex autoInit es) }
  else { log := log, final := none }

/-! ## Helper lemmas -/

theorem cleanup_serverOpen (s : AutoState) : (cleanup s).serverOpen = false := by
  unfold cleanup
  by_cases h1 : s.timerArmed <;> by_cases h2 : s.serverOpen <;> simp [h1, h2]

theorem cleanup_timerArmed (s : AutoState) : (cleanup s).timerArmed = false := by
  unfold cleanup
  by_cases h1 : s.timerArmed <;> by_cases h2 : s.serverOpen <;> simp [h1, h2]

theorem cleanup_promise (s : AutoState) : (cleanup s).promise = s.promise := by
  unfold cleanup
  by_cases h1 : s.timerArmed <;> by_cases h2 : s.serverOpen <;> simp [h1, h2]

theorem cleanup_exchangeCalls (s : AutoState) :
    (cleanup s).exchangeCalls = s.exchangeCalls := by
  unfold cleanup
  by_cases h1 : s.timerArmed <;> by_cases h2 : s.serverOpen <;> simp [h1, h2]

theorem cleanup_id (s : AutoState) (h1 : s.timerArmed = false)
    (h2 : s.serverOpen = false) : cleanup s = s := by
  unfold cleanup
  simp [h1, h2]

theorem resolveP_serverOpen (s : AutoState) (r : AuthResult) :
    (resolveP s r).serverOpen = s.serverOpen := by
  unfold resolveP
  cases s.promise <;> simp

theorem resolveP_timerArmed (s : AutoState) (r : AuthResult) :
    (resolveP s r).timerArmed = s.timerArmed := by
  unfold resolveP
  cases s.promise <;> simp

theorem resolveP_closeCount (s : AutoState) (r : AuthResult) :
    (resolveP s r).closeCount = s.closeCount := by
  unfold resolveP
  cases s.promise <;> simp

theorem resolveP_cancelCount (s : AutoState) (r : AuthResult) :
    (resolveP s r).cancelCount = s.cancelCount := by
  unfold resolveP
  cases s.promise <;> simp

theorem resolveP_exchangeCalls (s : AutoState) (r : AuthResult) :
    (resolveP s r).exchangeCalls = s.exchangeCalls := by
  unfold resolveP
  cases s.promise <;> simp

theorem resolveP_of_none (s : AutoState) (r : AuthResult) (h : s.promise = none) :
    resolveP s r = { s with promise := some r } := by
  unfold resolveP
  rw [h]

theorem resolveP_of_some (s : AutoState) (r r0 : AuthResult) (h : s.promise = some r0) :
    resolveP s r = s := by
  unfold resolveP
  rw [h]

/-- Every branch of the callback handler cleans up: the handler's
result never has a live socket. -/
theorem handleCallback_serverOpen (ex : Exchanger) (s : AutoState)
    (q : List (String × String)) : (handleCallback ex s q).serverOpen = false := by
  unfold handleCallback
  split
  · rw [resolveP_serverOpen, cleanup_serverOpen]
  · split
    · rw [resolveP_serverOpen, cleanup_serverOpen]
    · split <;> rw [resolveP_serverOpen, cleanup_serverOpen]

/-- Every branch of the callback handler cleans up: the handler's
result never has an armed timer. -/
theorem handleCallback_timerArmed (ex : Exchanger) (s : AutoState)
    (q : List (String × String)) : (handleCallback ex s q).timerArmed = false := by
  unfold handleCallback
  split
  · rw [resolveP_timerArmed, cleanup_timerArmed]
  · split
    · rw [resolveP_timerArmed, cleanup_timerArmed]
    · split <;> rw [resolveP_timerArmed, cleanup_timerArmed]

/-- A request arriving after the server is closed never reaches the
handler: the step is the identity. -/
theorem autoStep_request_closed (ex : Exchanger) (s : AutoState) (u : String)
    (h : s.serverOpen = false) : autoStep ex s (Event.request u) = s := by
  unfold autoStep
  simp [h]

/-- Invariant of the automated flow: once the attempt's promise is
settled, the socket is closed and the timer cancelled. -/
def Resolved ( s : AutoState) : Prop :=
  s.promise.isSome → (s.serverOpen = false ∧ s.timerArmed = false)

theorem autoStep_resolved (ex : Exchanger) (s : AutoState) (e : Event)
    (h : Resolved s) : Resolved (autoStep ex s e) := by
  cases e with
  | request u =>
    by_cases hs : s.serverOpen
    · unfold autoStep
      simp only [hs, if_true]
      by_cases hp : urlPathname u = "/"
      · simp only [hp, if_true]
        intro _
        exact ⟨handleCallback_serverOpen ex s _, handleCallback_timerArmed ex s _⟩
      · simp only [hp, if_false]
        exact h
    · rw [autoStep_request_closed ex s u (by simpa using hs)]
      exact h
  | timeout =>
    unfold autoStep
    by_cases ht : s.timerArmed
    · simp only [ht, if_true]
      intro _
      constructor
      · rw [resolveP_serverOpen, cleanup_serverOpen]
      · rw [resolveP_timerArmed, cleanup_timerArmed]
    · simp only [ht, if_false]
      exact h
  | serverError msg =>
    unfold autoStep
    intro _
    constructor
    · rw [resolveP_serverOpen, cleanup_serverOpen]
    · rw [resolveP_timerArmed, cleanup_timerArmed]

theorem autoRun_resolved (ex : Exchanger) (s : AutoState) (es : List Event)
    (h : Resolved s) : Resolved (autoRun ex s es) := by
  induction es generalizing s with
  | nil => exact h
  | cons e es ih => exact ih (autoStep ex s e) (autoStep_resolved ex s e h)

/-- With the socket closed and the timer cancelled, a step can no
longer close, cancel, or invoke the exchanger; the flags stay down. -/
theorem autoStep_closed_stable (ex : Exchanger) (s : AutoState) (e : Event)
    (h1 : s.serverOpen = false) (h2 : s.timerArmed = false) :
    (autoStep ex s e).serverOpen = false ∧ (autoStep ex s e).timerArmed = false ∧
    (autoStep ex s e).closeCount = s.closeCount ∧
    (autoStep ex s e).cancelCount = s.cancelCount ∧
    (autoStep ex s e).exchangeCalls = s.exchangeCalls := by
  cases e with
  | request u =>
    rw [autoStep_request_closed ex s u h1]
    exact ⟨h1, h2, rfl, rfl, rfl⟩
  | timeout =>
    unfold autoStep
    simp only [h2, if_false]
    exact ⟨h1, h2, rfl, rfl, rfl⟩
  | serverError msg =>
    unfold autoStep
    rw [cleanup_id s h2 h1]
    exact ⟨by rw [resolveP_serverOpen]; exact h1,
           by rw [resolveP_timerArmed]; exact h2,
           resolveP_closeCount s _, resolveP_cancelCount s _,
           resolveP_exchangeCalls s _⟩

theorem autoRun_closed_stable (ex : Exchanger) (s : AutoState) (es : List Event)
    (h1 : s.serverOpen = false) (h2 : s.timerArmed = false) :
    (autoRun ex s es).serverOpen = false ∧ (autoRun ex s es).timerArmed = false ∧
    (autoRun ex s es).closeCount = s.closeCount ∧
    (autoRun ex s es).cancelCount = s.cancelCount ∧
    (autoRun ex s es).exchangeCalls = s.exchangeCalls := by
  induction es generalizing s with
  | nil => exact ⟨h1, h2, rfl, rfl, rfl⟩
  | cons e es ih =>
    obtain ⟨g1, g2, g3, g4, g5⟩ := autoStep_closed_stable ex s e h1 h2
    obtain ⟨k1, k2, k3, k4, k5⟩ := ih (autoStep ex s e) g1 g2
    exact ⟨k1, k2, k3.trans g3, k4.trans g4, k5.trans g5⟩

theorem resolvePM_timerArmed (s : ManualState) (r : AuthResult) :
    (resolvePM s r).timerArmed = s.timerArmed := by
  unfold resolvePM
  cases s.promise <;> simp

/-- No step of the manual flow ever arms (or touches) the timer. -/
theorem manualStep_timerArmed (ex : Exchanger) (s : ManualState) (e : ManualEvent) :
    (manualStep ex s e).timerArmed = s.timerArmed := by
  cases e with
  | input line =>
    simp only [manualStep]
    split
    · rw [resolvePM_timerArmed]
    · split <;> rw [resolvePM_timerArmed]
  | timeout =>
    simp only [manualStep]
    split
    · rw [resolvePM_timerArmed]
    · rfl

theorem manualRun_timerArmed (ex : Exchanger) (s : ManualState) (es : List ManualEvent) :
    (manualRun ex s es).timerArmed = s.timerArmed := by
  induction es generalizing s with
  | nil => rfl
  | cons e es ih => rw [manualRun, ih, manualStep_timerArmed]

theorem manualRun_append (ex : Exchanger) (s : ManualState)
    (es1 es2 : List ManualEvent) :
    manualRun ex s (es1 ++ es2) = manualRun ex (manualRun ex s es1) es2 := by
  induction es1 generalizing s with
  | nil => rfl
  | cons e es ih => rw [List.cons_append, manualRun, manualRun, ih]

/-- With no timer armed, a timeout event is a no-op in the manual
flow. -/
theorem manualStep_timeout_disarmed (ex : Exchanger) (s : ManualState)
    (h : s.timerArmed = false) : manualStep ex s ManualEvent.timeout = s := by
  simp only [manualStep]
  simp [h]

/-! ## Concrete stub exchangers for witnesses -/

/-- Stub exchanger returning a token with a nonempty refresh token. -/
def exStub : Exchanger := fun _ => Except.ok { refresh_token := some "tok" }

/-- Stub exchanger withholding the refresh token for code `c1` and
returning an empty one for every other code. -/
def exNoRt : Exchanger := fun c =>
  if c = "c1" then Except.ok { refresh_token := none }
  else Except.ok { refresh_token := some "" }

/-! ## Claims -/

/-- C1: for every syntactically valid (nonempty) authorization code
delivered to the callback with no error parameter, and a token
exchanger whose tokens contain a (nonempty) refresh token,
`authorize()` resolves successfully and returns that refresh token,
which is a nonempty string. -/
theorem claim_C1_success_refresh_token (ex : Exchanger) (u qc rt : String)
    (hp : urlPathname u = "/")
    (herr : jsTruthy ((urlQuery u).lookup "error") = false)
    (hc : (urlQuery u).lookup "code" = some qc)
    (hqc : qc.isEmpty = false)
    (hex : ex qc = Except.ok { refresh_token := some rt })
    (hrt : rt.isEmpty = false) :
    authorizeAuto ex [Event.request u] = some (Except.ok rt) ∧ rt ≠ "" := by
  constructor
  · have h2 : jsTruthy (some qc) = true := by simp [jsTruthy, hqc]
    simp [authorizeAuto, autoRun, autoStep, autoInit, handleCallback, herr, h2, hc,
      getCode, hex, jsOrNone, hrt, cleanup, resolveP, authorizeResult, hp]
  · intro h
    rw [h] at hrt
    exact absurd hrt (by decide)

/-- C1 witness: the callback `/?code=abc` under `exStub` makes
`authorize()` return the nonempty refresh token `"tok"`. -/
theorem claim_C1_success_refresh_token_witness :
    authorizeAuto exStub [Event.request "/?code=abc"] = some (Except.ok "tok") ∧
    ("tok" : String) ≠ "" :=
  claim_C1_success_refresh_token exStub "/?code=abc" "abc" "tok"
    (by decide) (by decide) (by decide) (by decide) rfl (by decide)

/-- C2: in automated mode at most one callback request is terminal:
once the attempt's promise is settled (the promise's internal
resolved flag), any later request — to the callback path or any
other — leaves the whole attempt state unchanged: the token exchange
is not re-invoked (`exchangeCalls` is part of the state) and the
outcome does not change. -/
theorem claim_C2_single_terminal_callback (ex : Exchanger) (s0 : AutoState)
    (es : List Event) (u : String) (r : AuthResult)
    (h0 : s0.promise = none)
    (hr : (autoRun ex s0 es).promise = some r) :
    autoStep ex (autoRun ex s0 es) (Event.request u) = autoRun ex s0 es := by
  have hres : Resolved (autoRun ex s0 es) :=
    autoRun_resolved ex s0 es (by intro hs; rw [h0] at hs; simp at hs)
  exact autoStep_request_closed ex _ u (hres (by rw [hr]; rfl)).1

/-- C2 witness: after the error callback resolves the attempt, a later
`/?code=zzz` request changes nothing. -/
theorem claim_C2_single_terminal_callback_witness :
    autoInit.promise = none ∧
    (autoRun exStub autoInit [Event.request "/?error=denied"]).promise =
      some { success := false, error := some "denied" } ∧
    autoStep exStub (autoRun exStub autoInit [Event.request "/?error=denied"])
        (Event.request "/?code=zzz") =
      autoRun exStub autoInit [Event.request "/?error=denied"] :=
  ⟨rfl, by decide,
   claim_C2_single_terminal_callback exStub autoInit [Event.request "/?error=denied"]
     "/?code=zzz" { success := false, error := some "denied" } rfl (by decide)⟩

/-- C3: on every terminal transition of an automated-mode attempt —
success, error callback, missing-code callback, exchange exception,
bind failure (server error event), or timeout — the cleanup has run
by the time the result is delivered: the state carrying the settled
promise has the timer cancelled and the socket closed. -/
theorem claim_C3_cleanup_on_every_terminal (ex : Exchanger) (s : AutoState)
    (e : Event)
    (h0 : s.promise = none)
    (hr : (autoStep ex s e).promise.isSome = true) :
    (autoStep ex s e).serverOpen = false ∧ (autoStep ex s e).timerArmed = false :=
  autoStep_resolved ex s e (by intro hs; rw [h0] at hs; simp at hs) hr

/-- C3 witness: the timeout transition from the ready state resolves
the attempt with the socket closed and the timer cancelled. -/
theorem claim_C3_cleanup_on_every_terminal_witness :
    autoInit.promise = none ∧
    (autoStep exStub autoInit Event.timeout).promise.isSome = true ∧
    (autoStep exStub autoInit Event.timeout).serverOpen = false ∧
    (autoStep exStub autoInit Event.timeout).timerArmed = false := by
  refine ⟨rfl, by decide, ?_, ?_⟩
  · exact (claim_C3_cleanup_on_every_terminal exStub autoInit Event.timeout rfl (by decide)).1
  · exact (claim_C3_cleanup_on_every_terminal exStub autoInit Event.timeout rfl (by decide)).2

/-- C4: for every client identifier and redirect URI, the
authorization URL is exactly the provider endpoint with the query
parameters `client_id`, `redirect_uri` (URL-encoded),
`response_type=code`, `scope` (the fixed three scopes covering mail,
calendar and file storage, each percent-encoded, joined by encoded
spaces), `access_type=offline` and `prompt=consent` — i.e. the URL the
source builds coincides with the URL described by the spec, and the
scope set is the fixed three-element list. -/
theorem claim_C4_authorization_url (clientId redirectUri : String) :
    buildAuthUrl clientId redirectUri = specAuthorizationURL clientId redirectUri ∧
    SCOPES = ["https://mail.google.com/",
              "https://www.googleapis.com/auth/calendar",
              "https://www.googleapis.com/auth/drive"] := by
  refine ⟨?_, rfl⟩
  unfold buildAuthUrl specAuthorizationURL scopeStr
  have e1 : ("?client_id=" : String) = "?" ++ "client_id=" := rfl
  have e2 : ("&redirect_uri=" : String) = "&" ++ "redirect_uri=" := rfl
  have e3 : ("&response_type=code&scope=" : String) =
      "&" ++ "response_type=code" ++ "&" ++ "scope=" := rfl
  have e4 : ("&access_type=offline&prompt=consent" : String) =
      "&" ++ "access_type=offline" ++ "&" ++ "prompt=consent" := rfl
  rw [e1, e2, e3, e4]
  simp only [joinSep, String.append_assoc]

/-- C5 counterexample: the claim says the manual flow arms the same
2-minute deadline timer and resolves `TimedOut` on expiry. In the
source, `startManualFlow` (lines 2141-2180) never calls `setTimeout`:
at the concrete manual attempt where no input arrives and the
deadline elapses, no timer is armed and the attempt is still pending
(not resolved `TimedOut`). -/
theorem claim_C5_counterexample :
    manualInit.timerArmed = false ∧
    manualRun exStub manualInit [ManualEvent.timeout] = manualInit :=
  ⟨rfl, rfl⟩

/-- C5 amended: in manual mode no deadline timer is armed at all — the
console read is unbounded, a deadline expiry changes nothing, and the
attempt can only resolve through pasted input (the 2-minute timer
exists only in the automated flow). -/
theorem claim_C5_no_manual_timer (ex : Exchanger) (es : List ManualEvent) :
    (manualRun ex manualInit es).timerArmed = false ∧
    manualRun ex manualInit (es ++ [ManualEvent.timeout]) =
      manualRun ex manualInit es := by
  constructor
  · rw [manualRun_timerArmed]
    rfl
  · rw [manualRun_append]
    simp only [manualRun]
    exact manualStep_timeout_disarmed ex _ (by rw [manualRun_timerArmed]; rfl)

/-- C6 counterexample: with an attempt pending (live server and timer
handles on the instance), a second `authorize()` call is not
rejected: it returns no error and begins a second attempt,
overwriting the instance's server handle. -/
theorem claim_C6_counterexample :
    authorizeBegin false 2
        { serverId := some 1, timeoutId := some 7, attemptsStarted := 1 } =
      Except.ok { serverId := some 2, timeoutId := some 7, attemptsStarted := 2 } :=
  rfl

/-- C6 amended: `authorize()` performs no in-flight guard whatsoever:
whatever the instance state, a concurrent automated call proceeds
(never an error), starts another attempt, and overwrites the server
handle field. -/
theorem claim_C6_no_reentry_guard (s : InstanceState) (fresh : Nat) :
    authorizeBegin false fresh s =
      Except.ok { s with serverId := some fresh,
                         attemptsStarted := s.attemptsStarted + 1 } :=
  rfl

/-- C7: in manual mode, every pasted input whose parsed URL lacks a
`code` query parameter resolves the attempt as missing-code
(`"No authorization code found in URL"`) with the token exchanger
never invoked (`exchangeCalls` stays 0). -/
theorem claim_C7_manual_missing_code (ex : Exchanger) (input : String)
    (h : (urlQuery input).lookup "code" = none) :
    manualRun ex manualInit [ManualEvent.input input] =
      { promise := some { success := false,
                          error := some "No authorization code found in URL" },
        exchangeCalls := 0, timerArmed := false } := by
  simp [manualRun, manualStep, h, jsTruthy, resolvePM, manualInit]

/-- C7 witness: the pasted redirect URL
`http://localhost:1/?error=denied` has no code and resolves
missing-code without an exchange. -/
theorem claim_C7_manual_missing_code_witness :
    (urlQuery "http://localhost:1/?error=denied").lookup "code" = none ∧
    manualRun exStub manualInit [ManualEvent.input "http://localhost:1/?error=denied"] =
      { promise := some { success := false,
                          error := some "No authorization code found in URL" },
        exchangeCalls := 0, timerArmed := false } :=
  ⟨by decide,
   claim_C7_manual_missing_code exStub "http://localhost:1/?error=denied" (by decide)⟩

/-- C8: a callback request carrying a (truthy) `error` query parameter
resolves the attempt as cancelled with the provider's reason, without
invoking the token exchanger, and cleanup happens exactly once: the
step closes the socket and cancels the timer once, and no later event
of the attempt ever closes, cancels, or exchanges again. -/
theorem claim_C8_error_callback (ex : Exchanger) (u reason : String)
    (es : List Event)
    (hp : urlPathname u = "/")
    (he : (urlQuery u).lookup "error" = some reason)
    (hr : reason.isEmpty = false) :
    autoStep ex autoInit (Event.request u) =
      { serverOpen := false, timerArmed := false,
        promise := some { success := false, error := some reason },
        exchangeCalls := 0, closeCount := 1, cancelCount := 1 } ∧
    (autoRun ex (autoStep ex autoInit (Event.request u)) es).closeCount = 1 ∧
    (autoRun ex (autoStep ex autoInit (Event.request u)) es).cancelCount = 1 ∧
    (autoRun ex (autoStep ex autoInit (Event.request u)) es).exchangeCalls = 0 := by
  have h1 : jsTruthy (some reason) = true := by simp [jsTruthy, hr]
  have hstep : autoStep ex autoInit (Event.request u) =
      { serverOpen := false, timerArmed := false,
        promise := some { success := false, error := some reason },
        exchangeCalls := 0, closeCount := 1, cancelCount := 1 } := by
    simp [autoStep, autoInit, hp, handleCallback, he, h1, cleanup, resolveP]
  rw [hstep]
  obtain ⟨-, -, k3, k4, k5⟩ :=
    autoRun_closed_stable ex
      { serverOpen := false, timerArmed := false,
        promise := some { success := false, error := some reason },
        exchangeCalls := 0, closeCount := 1, cancelCount := 1 } es rfl rfl
  exact ⟨rfl, k3, k4, k5⟩

/-- C8 witness: the callback `/?error=access_denied` resolves the
attempt as cancelled; a later timeout and a later code request change
none of the counters. -/
theorem claim_C8_error_callback_witness :
    autoStep exStub autoInit (Event.request "/?error=access_denied") =
      { serverOpen := false, timerArmed := false,
        promise := some { success := false, error := some "access_denied" },
        exchangeCalls := 0, closeCount := 1, cancelCount := 1 } ∧
    (autoRun exStub (autoStep exStub autoInit (Event.request "/?error=access_denied"))
        [Event.timeout, Event.request "/?code=zzz"]).closeCount = 1 ∧
    (autoRun exStub (autoStep exStub autoInit (Event.request "/?error=access_denied"))
        [Event.timeout, Event.request "/?code=zzz"]).cancelCount = 1 ∧
    (autoRun exStub (autoStep exStub autoInit (Event.request "/?error=access_denied"))
        [Event.timeout, Event.request "/?code=zzz"]).exchangeCalls = 0 :=
  claim_C8_error_callback exStub "/?error=access_denied" "access_denied"
    [Event.timeout, Event.request "/?code=zzz"] (by decide) (by decide) (by decide)

set_option maxRecDepth 4000 in
/-- C9: the claim that launcher failure never aborts the attempt or
changes its outcome fails on the code, exhibited at the concrete
failing input (a linux host whose `xdg-open` is missing, so the spawn
fails). The authorization URL is printed in both runs — that half of
the claim holds, and the flow logic itself never consults the spawn
result — but the spawned child process has no error listener
(line 2292), so the failed spawn's error event is an uncaught
exception: the failed-launch run terminates the process and delivers
no result, while the successful-launch run resolves the attempt. The
two runs' outcomes differ, contradicting the claim; the spec's
fire-and-forget intent would require attaching an error listener to
the spawned process. -/
theorem claim_C9_spawn_failure_aborts :
    (automatedAttempt "cid" 43210 "linux" false exStub
        [Event.request "/?code=abc"]).final = none ∧
    (automatedAttempt "cid" 43210 "linux" true exStub
        [Event.request "/?code=abc"]).final =
      some { serverOpen := false, timerArmed := false,
             promise := some { success := true, refreshToken := some "tok" },
             exchangeCalls := 1, closeCount := 1, cancelCount := 1 } ∧
    buildAuthUrl "cid" "http://localhost:43210" ∈
      (automatedAttempt "cid" 43210 "linux" false exStub
        [Event.request "/?code=abc"]).log := by
  refine ⟨rfl, by decide, by decide⟩

/-- C10: in either mode, when the exchange succeeds but the returned
`refresh_token` is absent or the empty string, `authorize()` fails
with `"No refresh token received"` instead of returning success. -/
theorem claim_C10_no_empty_refresh_token (ex : Exchanger) (u input qc qc2 : String)
    (t t2 : Tokens)
    (hp : urlPathname u = "/")
    (herr : jsTruthy ((urlQuery u).lookup "error") = false)
    (hc : (urlQuery u).lookup "code" = some qc) (hqc : qc.isEmpty = false)
    (hex : ex qc = Except.ok t)
    (ht : t.refresh_token = none ∨ t.refresh_token = some "")
    (hc2 : (urlQuery input).lookup "code" = some qc2) (hqc2 : qc2.isEmpty = false)
    (hex2 : ex qc2 = Except.ok t2)
    (ht2 : t2.refresh_token = none ∨ t2.refresh_token = some "") :
    authorizeAuto ex [Event.request u] =
      some (Except.error "No refresh token received") ∧
    authorizeManual ex [ManualEvent.input input] =
      some (Except.error "No refresh token received") := by
  have hn : jsOrNone t.refresh_token = none := by
    rcases ht with h | h <;> rw [h] <;> rfl
  have hn2 : jsOrNone t2.refresh_token = none := by
    rcases ht2 with h | h <;> rw [h] <;> rfl
  constructor
  · have h2 : jsTruthy (some qc) = true := by simp [jsTruthy, hqc]
    simp [authorizeAuto, autoRun, autoStep, autoInit, handleCallback, herr, h2, hc,
      getCode, hex, hn, cleanup, resolveP, authorizeResult, hp]
  · have h2 : jsTruthy (some qc2) = true := by simp [jsTruthy, hqc2]
    simp [authorizeManual, manualRun, manualStep, manualInit, h2, hc2,
      getCode, hex2, hn2, resolvePM, authorizeResult]

/-- C10 witness: a callback code exchanged for tokens with no refresh
token and a pasted code exchanged for an empty one both make
`authorize()` fail with `"No refresh token received"`. -/
theorem claim_C10_no_empty_refresh_token_witness :
    exNoRt "c1" = Except.ok { refresh_token := none } ∧
    exNoRt "c2" = Except.ok { refresh_token := some "" } ∧
    authorizeAuto exNoRt [Event.request "/?code=c1"] =
      some (Except.error "No refresh token received") ∧
    authorizeManual exNoRt [ManualEvent.input "http://localhost:1/?code=c2"] =
      some (Except.error "No refresh token received") := by
  refine ⟨rfl, rfl, ?_, ?_⟩
  · exact (claim_C10_no_empty_refresh_token exNoRt "/?code=c1"
      "http://localhost:1/?code=c2" "c1" "c2"
      { refresh_token := none } { refresh_token := some "" }
      (by decide) (by decide) (by decide) (by decide) rfl (Or.inl rfl)
      (by decide) (by decide) rfl (Or.inr rfl)).1
  · exact (claim_C10_no_empty_refresh_token exNoRt "/?code=c1"
      "http://localhost:1/?code=c2" "c1" "c2"
      { refresh_token := none } { refresh_token := some "" }
      (by decide) (by decide) (by decide) (by decide) rfl (Or.inl rfl)
      (by decide) (by decide) rfl (Or.inr rfl)).2

end NbnGcli
